import Mathlib

/-!
Shallow embedding of the authenticated-route decision logic of the
Rail-frontend repository: the route helpers (`buildRouteConfig`,
`isInCriticalAuthFlow`, `handleAuthenticatedUser`, `handleStoredCredentials`,
`handleEmailVerification`, `handleGuestUser`, `determineRoute`) and the
one-shot navigation effect of `useProtectedRoute`.

Optional JS strings are modelled as `Option String`; JS truthiness of such a
value (undefined and the empty string are falsy) is `strTruthy`.  The JS
`||` fallback on optional strings is `jsOrStr`.
-/

namespace Rail

/-- The user record carried by the session store: at least
`hasPasscode : boolean` and an optional onboarding-status string. -/
structure User where
  hasPasscode : Bool
  onboardingStatus : Option String
deriving DecidableEq, Repr

/-- The session snapshot (`AuthState` in `types/routing.types`), as read
from the auth store by `useProtectedRoute`. -/
structure AuthState where
  user : Option User
  isAuthenticated : Bool
  accessToken : Option String
  onboardingStatus : Option String
  pendingVerificationEmail : Option String
deriving DecidableEq, Repr

/-- The derived route configuration: the seven booleans produced by
`buildRouteConfig`. -/
structure RouteConfig where
  inAuthGroup : Bool
  inTabsGroup : Bool
  isOnWelcomeScreen : Bool
  isOnLoginPasscode : Bool
  isOnVerifyEmail : Bool
  isOnCreatePasscode : Bool
  isOnConfirmPasscode : Bool
deriving DecidableEq, Repr

/-- JS truthiness of an optional string: `undefined` and `""` are falsy,
every other string is truthy. -/
def strTruthy : Option String → Bool
  | none => false
  | some s => s != ""

/-- The JS `a || b` fallback on two optional strings: the left value wins
unless it is falsy (undefined or empty). -/
def jsOrStr : Option String → Option String → Option String
  | none, b => b
  | some s, b => if s = "" then b else some s

/-- `buildRouteConfig(segments, pathname)`: each flag is an exact
comparison; `segments[0]` is the head of the segment list (undefined on an
empty list, which matches no group tag). -/
def buildRouteConfig (segments : List String) (pathname : String) : RouteConfig :=
  { inAuthGroup := segments.head? == some "(auth)"
    inTabsGroup := segments.head? == some "(tabs)"
    isOnWelcomeScreen := pathname == "/"
    isOnLoginPasscode := pathname == "/(auth)/login-passcode"
    isOnVerifyEmail := pathname == "/(auth)/verify-email"
    isOnCreatePasscode := pathname == "/(auth)/create-passcode"
    isOnConfirmPasscode := pathname == "/(auth)/confirm-passcode" }

/-- `isInCriticalAuthFlow(config)`: true on any of the four critical
in-flow screens. -/
def isInCriticalAuthFlow (config : RouteConfig) : Bool :=
  config.isOnLoginPasscode ||
  config.isOnVerifyEmail ||
  config.isOnCreatePasscode ||
  config.isOnConfirmPasscode

/-- `handleAuthenticatedUser(authState, config)`. -/
def handleAuthenticatedUser (authState : AuthState) (config : RouteConfig) :
    Option String :=
  if isInCriticalAuthFlow config then none
  else
    let userOnboardingStatus :=
      jsOrStr (authState.user.bind User.onboardingStatus) authState.onboardingStatus
    if userOnboardingStatus == some "completed" && config.inTabsGroup then none
    else if !config.inTabsGroup then some "/(tabs)"
    else none

/-- `handleStoredCredentials(authState, config)`; `user?.hasPasscode` is
falsy when the user record is absent. -/
def handleStoredCredentials (authState : AuthState) (config : RouteConfig) :
    Option String :=
  if config.inAuthGroup then none
  else
    let userHasPasscode := (authState.user.map User.hasPasscode).getD false
    if userHasPasscode && !config.isOnLoginPasscode then
      some "/(auth)/login-passcode"
    else if !userHasPasscode && !config.isOnWelcomeScreen then
      some "/(auth)/signin"
    else none

/-- `handleEmailVerification(config)`. -/
def handleEmailVerification (config : RouteConfig) : Option String :=
  if config.isOnVerifyEmail then none
  else if !config.isOnVerifyEmail && !config.isOnWelcomeScreen then
    some "/(auth)/verify-email"
  else none

/-- `handleGuestUser(hasSeenWelcome, config)`. -/
def handleGuestUser (hasSeenWelcome : Bool) (config : RouteConfig) :
    Option String :=
  if hasSeenWelcome && config.inAuthGroup then none
  else if !hasSeenWelcome && !config.isOnWelcomeScreen then some "/"
  else if config.inTabsGroup || (!config.inAuthGroup && !config.isOnWelcomeScreen) then
    some "/"
  else none

/-- `determineRoute(authState, config, hasSeenWelcome)`: the four sequential
truthiness-guarded branches of the decision engine, with the final
defensive `return null`. -/
def determineRoute (authState : AuthState) (config : RouteConfig)
    (hasSeenWelcome : Bool) : Option String :=
  if authState.isAuthenticated && authState.user.isSome
      && strTruthy authState.accessToken then
    handleAuthenticatedUser authState config
  else if !authState.isAuthenticated && authState.user.isSome then
    handleStoredCredentials authState config
  else if !authState.isAuthenticated && !authState.user.isSome
      && strTruthy authState.pendingVerificationEmail then
    handleEmailVerification config
  else if !authState.isAuthenticated && !authState.user.isSome then
    handleGuestUser hasSeenWelcome config
  else none

/-!
The navigation effect of `useProtectedRoute`, modelled as a step relation:
the routing effect body runs with the current dependencies; it returns
early (no command) unless `isReady` is set and the `hasNavigatedRef` latch
is still clear; when `determineRoute` yields a target it sets the latch
and issues exactly one `router.replace` command.  The init effect's
`finally` block is the step that sets `isReady`.
-/

/-- The per-mount component state of `useProtectedRoute`: the `isReady`
state flag and the `hasNavigatedRef` latch. -/
structure HookState where
  isReady : Bool
  hasNavigated : Bool
deriving DecidableEq, Repr

/-- The state at a fresh mount: `isReady = false`, latch clear. -/
def freshMount : HookState := ⟨false, false⟩

/-- One event the effect system can process: the init effect completing
(setting `isReady`), or a run of the routing effect with the dependency
values current at that moment. -/
inductive HookStep where
  | ready
  | routing (authState : AuthState) (config : RouteConfig) (hasSeenWelcome : Bool)
deriving DecidableEq, Repr

/-- Process one step: the new component state and the `router.replace`
command issued by that step, if any. -/
def runHookStep (s : HookState) : HookStep → HookState × Option String
  | .ready => ({ s with isReady := true }, none)
  | .routing authState config hasSeenWelcome =>
      if !s.isReady || s.hasNavigated then (s, none)
      else
        match determineRoute authState config hasSeenWelcome with
        | some target => ({ s with hasNavigated := true }, some target)
        | none => (s, none)

/-- Process a trace of steps, collecting every command issued. -/
def runHook (s : HookState) : List HookStep → HookState × List String
  | [] => (s, [])
  | step :: rest =>
      let out := runHookStep s step
      let res := runHook out.1 rest
      (res.1, out.2.toList ++ res.2)

/-! Helper range lemmas: every handler returns `none` or one of the five
literal target paths. -/

lemma handleAuthenticatedUser_range (authState : AuthState) (config : RouteConfig)
    (s : String) (h : handleAuthenticatedUser authState config = some s) :
    s = "/(tabs)" := by
  unfold handleAuthenticatedUser at h
  repeat' split at h
  all_goals simp_all

lemma handleStoredCredentials_range (authState : AuthState) (config : RouteConfig)
    (s : String) (h : handleStoredCredentials authState config = some s) :
    s = "/(auth)/login-passcode" ∨ s = "/(auth)/signin" := by
  simp only [handleStoredCredentials] at h
  repeat' split at h
  all_goals simp_all

lemma handleEmailVerification_range (config : RouteConfig)
    (s : String) (h : handleEmailVerification config = some s) :
    s = "/(auth)/verify-email" := by
  unfold handleEmailVerification at h
  repeat' split at h
  all_goals simp_all

lemma handleGuestUser_range (hasSeenWelcome : Bool) (config : RouteConfig)
    (s : String) (h : handleGuestUser hasSeenWelcome config = some s) :
    s = "/" := by
  unfold handleGuestUser at h
  repeat' split at h
  all_goals simp_all

lemma determineRoute_range (authState : AuthState) (config : RouteConfig)
    (hasSeenWelcome : Bool) (s : String)
    (h : determineRoute authState config hasSeenWelcome = some s) :
    s = "/" ∨ s = "/(tabs)" ∨ s = "/(auth)/login-passcode" ∨
      s = "/(auth)/signin" ∨ s = "/(auth)/verify-email" := by
  unfold determineRoute at h
  split at h
  · exact Or.inr (Or.inl (handleAuthenticatedUser_range _ _ _ h))
  · split at h
    · rcases handleStoredCredentials_range _ _ _ h with h' | h'
      · exact Or.inr (Or.inr (Or.inl h'))
      · exact Or.inr (Or.inr (Or.inr (Or.inl h')))
    · split at h
      · exact Or.inr (Or.inr (Or.inr (Or.inr (handleEmailVerification_range _ _ h))))
      · split at h
        · exact Or.inl (handleGuestUser_range _ _ _ h)
        · exact absurd h (by simp)

/-- C1. Critical-flow protection: for every session snapshot in which
`isAuthenticated`, `user` and `accessToken` are all truthy, and every route
config with at least one of the four critical-screen flags set,
`determineRoute` returns nothing, for every onboarding status, every value
of `inTabsGroup`, and every value of `hasSeenWelcome`. -/
theorem determineRoute_critical_flow_protection
    (authState : AuthState) (config : RouteConfig) (hasSeenWelcome : Bool)
    (hAuth : authState.isAuthenticated = true)
    (hUser : authState.user.isSome = true)
    (hTok : strTruthy authState.accessToken = true)
    (hCrit : config.isOnLoginPasscode = true ∨ config.isOnVerifyEmail = true ∨
      config.isOnCreatePasscode = true ∨ config.isOnConfirmPasscode = true) :
    determineRoute authState config hasSeenWelcome = none := by
  have hcrit : isInCriticalAuthFlow config = true := by
    unfold isInCriticalAuthFlow
    rcases hCrit with h | h | h | h <;> simp [h]
  simp [determineRoute, hAuth, hUser, hTok, handleAuthenticatedUser, hcrit]

theorem determineRoute_critical_flow_protection_witness :
    let authState : AuthState :=
      ⟨some ⟨true, some "completed"⟩, true, some "tok", none, none⟩
    let config : RouteConfig := ⟨true, false, false, false, true, false, false⟩
    authState.isAuthenticated = true ∧ authState.user.isSome = true ∧
    strTruthy authState.accessToken = true ∧ config.isOnVerifyEmail = true ∧
    determineRoute authState config true = none :=
  ⟨rfl, rfl, by decide, rfl,
    determineRoute_critical_flow_protection _ _ true rfl rfl (by decide)
      (Or.inr (Or.inl rfl))⟩

/-- C2. Totality of the decision engine: for every session snapshot, route
config and welcome flag, `determineRoute` returns either nothing or a
non-empty target string (the embedded function is total, with no error
branch). -/
theorem determineRoute_total
    (authState : AuthState) (config : RouteConfig) (hasSeenWelcome : Bool) :
    determineRoute authState config hasSeenWelcome = none ∨
      ∃ s, determineRoute authState config hasSeenWelcome = some s ∧ s ≠ "" := by
  cases h : determineRoute authState config hasSeenWelcome with
  | none => exact Or.inl rfl
  | some s =>
      refine Or.inr ⟨s, rfl, ?_⟩
      rcases determineRoute_range _ _ _ _ h with h' | h' | h' | h' | h' <;>
        simp [h']

/-- C3. Malformed-session fallthrough: for every session snapshot with
`isAuthenticated = true` but `user` absent or `accessToken` absent, and
every route config and welcome flag, `determineRoute` returns nothing via
the defensive fallthrough after the four branches. -/
theorem determineRoute_malformed_session
    (authState : AuthState) (config : RouteConfig) (hasSeenWelcome : Bool)
    (hAuth : authState.isAuthenticated = true)
    (hBad : authState.user = none ∨ authState.accessToken = none) :
    determineRoute authState config hasSeenWelcome = none := by
  rcases hBad with h | h <;> simp [determineRoute, hAuth, h, strTruthy]

theorem determineRoute_malformed_session_witness :
    let authState : AuthState := ⟨some ⟨true, none⟩, true, none, none, none⟩
    let config : RouteConfig := ⟨false, false, false, false, false, false, false⟩
    authState.isAuthenticated = true ∧ authState.accessToken = none ∧
    determineRoute authState config false = none :=
  ⟨rfl, rfl,
    determineRoute_malformed_session _ _ false rfl (Or.inr rfl)⟩

/-- C4. Guest branch: with `isAuthenticated = false`, no user and no
(truthy) pending verification email — (i) welcome seen and in the auth
group gives nothing; (ii) welcome not seen and not on the welcome screen
gives `/`; (iii) otherwise, in the tabs group or (not in the auth group and
not on the welcome screen) gives `/`; (iv) otherwise nothing. -/
theorem determineRoute_guest_branch
    (authState : AuthState) (config : RouteConfig) (hasSeenWelcome : Bool)
    (hAuth : authState.isAuthenticated = false)
    (hUser : authState.user = none)
    (hPend : strTruthy authState.pendingVerificationEmail = false) :
    (hasSeenWelcome = true ∧ config.inAuthGroup = true →
      determineRoute authState config hasSeenWelcome = none) ∧
    (hasSeenWelcome = false ∧ config.isOnWelcomeScreen = false →
      determineRoute authState config hasSeenWelcome = some "/") ∧
    (¬(hasSeenWelcome = true ∧ config.inAuthGroup = true) ∧
      ¬(hasSeenWelcome = false ∧ config.isOnWelcomeScreen = false) ∧
      (config.inTabsGroup = true ∨
        (config.inAuthGroup = false ∧ config.isOnWelcomeScreen = false)) →
      determineRoute authState config hasSeenWelcome = some "/") ∧
    (¬(hasSeenWelcome = true ∧ config.inAuthGroup = true) ∧
      ¬(hasSeenWelcome = false ∧ config.isOnWelcomeScreen = false) ∧
      ¬(config.inTabsGroup = true ∨
        (config.inAuthGroup = false ∧ config.isOnWelcomeScreen = false)) →
      determineRoute authState config hasSeenWelcome = none) := by
  have hd : determineRoute authState config hasSeenWelcome =
      handleGuestUser hasSeenWelcome config := by
    simp [determineRoute, hAuth, hUser, hPend]
  rw [hd]
  obtain ⟨cA, cT, cW, cL, cV, cC, cF⟩ := config
  cases hasSeenWelcome <;> cases cA <;> cases cT <;> cases cW <;>
    simp [handleGuestUser]

theorem determineRoute_guest_branch_witness :
    let authState : AuthState := ⟨none, false, none, none, none⟩
    let config : RouteConfig := ⟨false, true, false, false, false, false, false⟩
    authState.isAuthenticated = false ∧ authState.user = none ∧
    strTruthy authState.pendingVerificationEmail = false ∧
    ((true = true ∧ config.inAuthGroup = true →
        determineRoute authState config true = none) ∧
      (true = false ∧ config.isOnWelcomeScreen = false →
        determineRoute authState config true = some "/") ∧
      (¬(true = true ∧ config.inAuthGroup = true) ∧
        ¬(true = false ∧ config.isOnWelcomeScreen = false) ∧
        (config.inTabsGroup = true ∨
          (config.inAuthGroup = false ∧ config.isOnWelcomeScreen = false)) →
        determineRoute authState config true = some "/") ∧
      (¬(true = true ∧ config.inAuthGroup = true) ∧
        ¬(true = false ∧ config.isOnWelcomeScreen = false) ∧
        ¬(config.inTabsGroup = true ∨
          (config.inAuthGroup = false ∧ config.isOnWelcomeScreen = false)) →
        determineRoute authState config true = none)) :=
  ⟨rfl, rfl, rfl, determineRoute_guest_branch _ _ true rfl rfl rfl⟩

/-- C5. Stored-credentials branch: with `isAuthenticated = false` and a
user record present — (i) in the auth group gives nothing; (ii) with a
passcode and not on the login-passcode screen gives the login-passcode
path; (iii) without a passcode and not on the welcome screen gives the
sign-in path; (iv) otherwise nothing. -/
theorem determineRoute_stored_credentials
    (authState : AuthState) (config : RouteConfig) (hasSeenWelcome : Bool)
    (u : User)
    (hAuth : authState.isAuthenticated = false)
    (hUser : authState.user = some u) :
    (config.inAuthGroup = true →
      determineRoute authState config hasSeenWelcome = none) ∧
    (config.inAuthGroup = false → u.hasPasscode = true →
      config.isOnLoginPasscode = false →
      determineRoute authState config hasSeenWelcome =
        some "/(auth)/login-passcode") ∧
    (config.inAuthGroup = false → u.hasPasscode = false →
      config.isOnWelcomeScreen = false →
      determineRoute authState config hasSeenWelcome = some "/(auth)/signin") ∧
    (config.inAuthGroup = false →
      ((u.hasPasscode = true ∧ config.isOnLoginPasscode = true) ∨
        (u.hasPasscode = false ∧ config.isOnWelcomeScreen = true)) →
      determineRoute authState config hasSeenWelcome = none) := by
  have hd : determineRoute authState config hasSeenWelcome =
      handleStoredCredentials authState config := by
    simp [determineRoute, hAuth, hUser]
  rw [hd]
  simp only [handleStoredCredentials, hUser]
  obtain ⟨uP, uO⟩ := u
  obtain ⟨cA, cT, cW, cL, cV, cC, cF⟩ := config
  cases uP <;> cases cA <;> cases cL <;> cases cW <;> simp

theorem determineRoute_stored_credentials_witness :
    let u : User := ⟨true, none⟩
    let authState : AuthState := ⟨some u, false, none, none, none⟩
    let config : RouteConfig := ⟨false, false, false, false, false, false, false⟩
    authState.isAuthenticated = false ∧ authState.user = some u ∧
    ((config.inAuthGroup = true →
        determineRoute authState config false = none) ∧
      (config.inAuthGroup = false → u.hasPasscode = true →
        config.isOnLoginPasscode = false →
        determineRoute authState config false =
          some "/(auth)/login-passcode") ∧
      (config.inAuthGroup = false → u.hasPasscode = false →
        config.isOnWelcomeScreen = false →
        determineRoute authState config false = some "/(auth)/signin") ∧
      (config.inAuthGroup = false →
        ((u.hasPasscode = true ∧ config.isOnLoginPasscode = true) ∨
          (u.hasPasscode = false ∧ config.isOnWelcomeScreen = true)) →
        determineRoute authState config false = none)) :=
  ⟨rfl, rfl, determineRoute_stored_credentials _ _ false _ rfl rfl⟩

/-- C6. Pending-verification branch with the deliberate welcome-screen gap:
with `isAuthenticated = false`, no user and a truthy pending verification
email — on the verify-email screen gives nothing; off the verify-email
screen and off the welcome screen gives the verify-email path; on the
welcome screen gives nothing (no redirect toward verification). -/
theorem determineRoute_pending_verification
    (authState : AuthState) (config : RouteConfig) (hasSeenWelcome : Bool)
    (hAuth : authState.isAuthenticated = false)
    (hUser : authState.user = none)
    (hPend : strTruthy authState.pendingVerificationEmail = true) :
    (config.isOnVerifyEmail = true →
      determineRoute authState config hasSeenWelcome = none) ∧
    (config.isOnVerifyEmail = false → config.isOnWelcomeScreen = false →
      determineRoute authState config hasSeenWelcome =
        some "/(auth)/verify-email") ∧
    (config.isOnVerifyEmail = false → config.isOnWelcomeScreen = true →
      determineRoute authState config hasSeenWelcome = none) := by
  have hd : determineRoute authState config hasSeenWelcome =
      handleEmailVerification config := by
    simp [determineRoute, hAuth, hUser, hPend]
  rw [hd]
  obtain ⟨cA, cT, cW, cL, cV, cC, cF⟩ := config
  cases cV <;> cases cW <;> simp [handleEmailVerification]

theorem determineRoute_pending_verification_witness :
    let authState : AuthState := ⟨none, false, none, none, some "a@b.com"⟩
    let config : RouteConfig := ⟨false, false, false, false, false, false, false⟩
    authState.isAuthenticated = false ∧ authState.user = none ∧
    strTruthy authState.pendingVerificationEmail = true ∧
    ((config.isOnVerifyEmail = true →
        determineRoute authState config true = none) ∧
      (config.isOnVerifyEmail = false → config.isOnWelcomeScreen = false →
        determineRoute authState config true = some "/(auth)/verify-email") ∧
      (config.isOnVerifyEmail = false → config.isOnWelcomeScreen = true →
        determineRoute authState config true = none)) :=
  ⟨rfl, rfl, by decide,
    determineRoute_pending_verification _ _ true rfl rfl (by decide)⟩

/-- C7. Route-config builder contract: every flag of `buildRouteConfig` is
decided by exact comparison only — `inAuthGroup` iff the first segment is
`(auth)`, `inTabsGroup` iff it is `(tabs)`, `isOnWelcomeScreen` iff the
path is exactly `/`, each critical-screen flag iff the path exactly equals
that screen's path — and an empty segment list sets neither group flag. -/
theorem buildRouteConfig_exact_match (segments : List String) (pathname : String) :
    ((buildRouteConfig segments pathname).inAuthGroup = true ↔
      segments.head? = some "(auth)") ∧
    ((buildRouteConfig segments pathname).inTabsGroup = true ↔
      segments.head? = some "(tabs)") ∧
    ((buildRouteConfig segments pathname).isOnWelcomeScreen = true ↔
      pathname = "/") ∧
    ((buildRouteConfig segments pathname).isOnLoginPasscode = true ↔
      pathname = "/(auth)/login-passcode") ∧
    ((buildRouteConfig segments pathname).isOnVerifyEmail = true ↔
      pathname = "/(auth)/verify-email") ∧
    ((buildRouteConfig segments pathname).isOnCreatePasscode = true ↔
      pathname = "/(auth)/create-passcode") ∧
    ((buildRouteConfig segments pathname).isOnConfirmPasscode = true ↔
      pathname = "/(auth)/confirm-passcode") ∧
    ((buildRouteConfig [] pathname).inAuthGroup = false ∧
      (buildRouteConfig [] pathname).inTabsGroup = false) := by
  simp [buildRouteConfig]

/-- C9. Welcome-flag noninterference outside the guest branch: whenever the
session is authenticated, or a user record is present, or a pending
verification email is (truthily) present, `determineRoute` gives the same
answer for `hasSeenWelcome = true` and `hasSeenWelcome = false`. -/
theorem determineRoute_welcome_noninterference
    (authState : AuthState) (config : RouteConfig)
    (h : authState.isAuthenticated = true ∨ authState.user.isSome = true ∨
      strTruthy authState.pendingVerificationEmail = true) :
    determineRoute authState config true = determineRoute authState config false := by
  obtain ⟨user, isAuth, tok, ob, pend⟩ := authState
  cases isAuth <;> cases user <;> simp_all [determineRoute]

theorem determineRoute_welcome_noninterference_witness :
    let authState : AuthState :=
      ⟨some ⟨false, some "started"⟩, true, some "tok", none, none⟩
    let config : RouteConfig := ⟨false, false, true, false, false, false, false⟩
    (authState.isAuthenticated = true ∨ authState.user.isSome = true ∨
      strTruthy authState.pendingVerificationEmail = true) ∧
    determineRoute authState config true = determineRoute authState config false :=
  ⟨Or.inl rfl, determineRoute_welcome_noninterference _ _ (Or.inl rfl)⟩

/-- C10. Closed output range: whenever `determineRoute` returns a target it
is one of exactly five literal paths: `/`, `/(tabs)`,
`/(auth)/login-passcode`, `/(auth)/signin`, `/(auth)/verify-email`. -/
theorem determineRoute_closed_range
    (authState : AuthState) (config : RouteConfig) (hasSeenWelcome : Bool)
    (s : String) (h : determineRoute authState config hasSeenWelcome = some s) :
    s ∈ (["/", "/(tabs)", "/(auth)/login-passcode", "/(auth)/signin",
      "/(auth)/verify-email"] : List String) := by
  rcases determineRoute_range _ _ _ _ h with h' | h' | h' | h' | h' <;> simp [h']

theorem determineRoute_closed_range_witness :
    determineRoute ⟨none, false, none, none, none⟩
      ⟨false, false, false, false, false, false, false⟩ false = some "/" ∧
    "/" ∈ (["/", "/(tabs)", "/(auth)/login-passcode", "/(auth)/signin",
      "/(auth)/verify-email"] : List String) :=
  ⟨by decide,
    determineRoute_closed_range ⟨none, false, none, none, none⟩
      ⟨false, false, false, false, false, false, false⟩ false "/" (by decide)⟩

/-! Helper lemmas for the one-shot navigation latch. -/

lemma runHook_cons (s : HookState) (step : HookStep) (rest : List HookStep) :
    runHook s (step :: rest) =
      ((runHook (runHookStep s step).1 rest).1,
        (runHookStep s step).2.toList ++ (runHook (runHookStep s step).1 rest).2) :=
  rfl

lemma runHookStep_latched (s : HookState) (step : HookStep)
    (h : s.hasNavigated = true) :
    (runHookStep s step).1.hasNavigated = true ∧ (runHookStep s step).2 = none := by
  cases step <;> simp [runHookStep, h]

lemma runHook_latched (steps : List HookStep) :
    ∀ s : HookState, s.hasNavigated = true → (runHook s steps).2 = [] := by
  induction steps with
  | nil => intro s _; rfl
  | cons step rest ih =>
      intro s h
      obtain ⟨h1, h2⟩ := runHookStep_latched s step h
      rw [runHook_cons, h2]
      simp [ih _ h1]

lemma runHookStep_cases (s : HookState) (step : HookStep) :
    ((runHookStep s step).2 = none ∧
      (runHookStep s step).1.hasNavigated = s.hasNavigated) ∨
    (s.hasNavigated = false ∧ (runHookStep s step).2.toList.length = 1 ∧
      (runHookStep s step).1.hasNavigated = true) := by
  cases step with
  | ready => exact Or.inl ⟨rfl, rfl⟩
  | routing authState config hasSeenWelcome =>
      by_cases hNav : s.hasNavigated = true
      · obtain ⟨h1, h2⟩ := runHookStep_latched s _ hNav
        exact Or.inl ⟨h2, by rw [h1, hNav]⟩
      · replace hNav : s.hasNavigated = false := by simpa using hNav
        by_cases hR : s.isReady = true
        · cases hd : determineRoute authState config hasSeenWelcome with
          | none => exact Or.inl (by simp [runHookStep, hR, hNav, hd])
          | some target =>
              exact Or.inr ⟨hNav, by simp [runHookStep, hR, hNav, hd]⟩
        · replace hR : s.isReady = false := by simpa using hR
          exact Or.inl (by simp [runHookStep, hR])

lemma runHook_cmds_le (steps : List HookStep) :
    ∀ s : HookState,
      (runHook s steps).2.length ≤ (if s.hasNavigated = true then 0 else 1) := by
  induction steps with
  | nil => intro s; simp only [runHook, List.length_nil]; split <;> simp
  | cons step rest ih =>
      intro s
      rw [runHook_cons]
      rcases runHookStep_cases s step with ⟨h2, h1⟩ | ⟨h0, ⟨h2, h1⟩⟩
      · have := ih (runHookStep s step).1
        rw [h1] at this
        simpa [h2] using this
      · have hl := runHook_latched rest _ h1
        simp [h0, hl, h2]

lemma runHookStep_notReady (s : HookState) (step : HookStep)
    (hR : s.isReady = false) (hstep : step ≠ HookStep.ready) :
    runHookStep s step = (s, none) := by
  cases step with
  | ready => exact absurd rfl hstep
  | routing authState config hasSeenWelcome => simp [runHookStep, hR]

lemma runHook_notReady (steps : List HookStep) :
    ∀ s : HookState, s.isReady = false →
      (∀ step ∈ steps, step ≠ HookStep.ready) → (runHook s steps).2 = [] := by
  induction steps with
  | nil => intro s _ _; rfl
  | cons step rest ih =>
      intro s hR hsteps
      rw [runHook_cons,
        runHookStep_notReady s step hR (hsteps step (List.mem_cons_self _ _))]
      simp [ih s hR (fun st hst => hsteps st (List.mem_cons_of_mem _ hst))]

/-- C8. One-shot navigation latch: in every trace of effect runs starting
from a fresh mount, at most one `router.replace` command is ever issued, no
matter how many steps occur; and in a trace in which `isReady` is never
set, no command is issued at all. -/
theorem useProtectedRoute_one_shot (steps : List HookStep) :
    (runHook freshMount steps).2.length ≤ 1 ∧
    ((∀ step ∈ steps, step ≠ HookStep.ready) →
      (runHook freshMount steps).2 = []) := by
  constructor
  · simpa [freshMount] using runHook_cmds_le steps freshMount
  · exact runHook_notReady steps freshMount rfl

theorem useProtectedRoute_one_shot_witness :
    (runHook freshMount
      [HookStep.routing ⟨none, false, none, none, none⟩
        ⟨false, false, false, false, false, false, false⟩ false]).2.length ≤ 1 ∧
    (runHook freshMount
      [HookStep.routing ⟨none, false, none, none, none⟩
        ⟨false, false, false, false, false, false, false⟩ false]).2 = [] :=
  ⟨(useProtectedRoute_one_shot
      [HookStep.routing ⟨none, false, none, none, none⟩
        ⟨false, false, false, false, false, false, false⟩ false]).1,
    (useProtectedRoute_one_shot
      [HookStep.routing ⟨none, false, none, none, none⟩
        ⟨false, false, false, false, false, false, false⟩ false]).2 (by decide)⟩

end Rail
